import Mathlib

/-!
Shallow embedding of `detect_secrets/main.py`: the command-orchestration layer
of the detect-secrets tool.  The external collaborators (plugin registry, file
enumeration, baseline persistence, audit analytics) are modelled as function
parameters collected in an `Env`; side effects (printing, saving a baseline
file) are modelled as an explicit trace of `Effect`s, and Python exceptions as
an `Option Err` component threaded alongside the trace (an exception aborts the
remaining computation but keeps the effects that already happened).
-/

namespace DetectSecrets

/-- A registered detector plugin, as used by `scan_adhoc_string`: its class
name (`plugin.__class__.__name__`) and its `secret_type` attribute. -/
structure Plugin where
  className : String
  secretType : String
deriving DecidableEq

/-- A detected secret occurrence (`PotentialSecret`), restricted to the fields
`main.py` reads: `secret.filename` and `secret.type`. -/
structure Secret where
  filename : String
  type : String
deriving DecidableEq

/-- Result of `audit.analytics.calculate_statistics_for_baseline`: an opaque
statistics object exposing the two renderings `main.py` prints
(`stats.json()` and `str(stats)`). -/
structure Stats where
  jsonRendering : String
  strRendering : String
deriving DecidableEq

/-- `audit.report.SecretClassToPrint`. -/
inductive SecretClass where
  | realSecret
  | falsePositive
deriving DecidableEq

/-- Python exceptions that `main.py` raises or handles:
`InvalidBaselineError` (caught in `handle_audit_action`), `NotImplementedError`
(raised for `--stats --diff`), and `ValueError` (raised by `max([])` in
`scan_adhoc_string` when no plugin is registered). -/
inductive Err where
  | invalidBaseline
  | notImplemented
  | valueError
deriving DecidableEq

/-- What a single `print(...)` call in `main.py` writes to standard output,
kept structured so that the kind of output is observable. -/
inductive Output where
  | pluginList (names : List String)
  | adhoc (table : String)
  | allowlistJson (secrets : List Secret)
  | scanJson (secrets : List Secret) (slim : Bool)
  | statsJson (s : Stats)
  | statsStr (s : Stats)
  | reportJson (r : String)
deriving DecidableEq

/-- An observable side effect of the orchestration layer: a `print` to
standard output or `baseline.save_to_file(secrets, filename)`. -/
inductive Effect where
  | print (o : Output)
  | saveBaseline (secrets : List Secret) (filename : String)
deriving DecidableEq

/-- The value of `args.string`: argparse leaves it unset (`None`), sets it to
`True` when `--string` is passed without a value, or to the supplied text. -/
inductive PyStrArg where
  | pyNone
  | pyBool (b : Bool)
  | pyStr (s : String)
deriving DecidableEq

/-- Python truthiness of `args.string`, as tested by `if args.string:`. -/
def PyStrArg.truthy : PyStrArg → Bool
  | .pyNone => false
  | .pyBool b => b
  | .pyStr s => s ≠ ""

/-- The arguments consumed by `handle_scan_action`.  `baseline` carries the
already-loaded baseline data (opaque here) or `none` when `--baseline` was not
supplied. -/
structure ScanArgs where
  list_all_plugins : Bool
  string : PyStrArg
  only_allowlisted : Bool
  path : List String
  all_files : Bool
  custom_root : String
  num_cores : Nat
  baseline : Option String
  baseline_filename : String
  slim : Bool
deriving DecidableEq

/-- The arguments consumed by `handle_audit_action`. -/
structure AuditArgs where
  stats : Bool
  diff : Bool
  json : Bool
  report : Bool
  only_real : Bool
  only_false : Bool
  filename : List String
deriving DecidableEq

/-- The external collaborators of `main.py`, modelled as pure functions.
Fallible collaborators return `Except Err`; in particular `merge` is
modelled from the spec: `SecretsCollection.merge` (module
`detect_secrets.core.secrets_collection`, not part of this source file) fails
with `InvalidBaselineError` when the supplied baseline cannot be parsed, and
otherwise yields the reconciled collection. -/
structure Env where
  /-- `get_settings().plugins`: names of configured plugins. -/
  settingsPlugins : List String
  /-- `get_plugins()`: the registered plugin objects. -/
  plugins : List Plugin
  /-- `sys.stdin.read().splitlines()[0]`. -/
  stdinFirstLine : String
  /-- `scan_line(line)`. -/
  scan_line : String → List Secret
  /-- `plugins.initialize.from_secret_type(secret.type).format_scan_result(secret)`. -/
  format_scan_result : Secret → String
  /-- `get_files_to_scan(*paths, should_scan_all_files, root)`. -/
  get_files_to_scan : List String → Bool → String → List String
  /-- `scan_for_allowlisted_secrets_in_file(filename)`. -/
  scan_for_allowlisted : String → List Secret
  /-- `baseline.create(*paths, should_scan_all_files, root, num_processors)`. -/
  baseline_create : List String → Bool → String → Nat → List Secret
  /-- Modelled from the spec: `SecretsCollection.merge` of the freshly scanned
  collection with the supplied baseline, failing with `InvalidBaselineError`
  when the baseline cannot be parsed. -/
  merge : List Secret → String → Except Err (List Secret)
  /-- `audit.analytics.calculate_statistics_for_baseline(filename)`, which may
  raise `InvalidBaselineError`. -/
  calculate_statistics : String → Except Err Stats
  /-- `audit.report.generate_report(filename, class_to_print)`, already
  JSON-serialized; may raise `InvalidBaselineError`. -/
  generate_report : String → Option SecretClass → Except Err String
  /-- `audit.compare_baselines(f0, f1)`: its effects and possible exception. -/
  compare_baselines : String → String → List Effect × Option Err
  /-- `audit.audit_baseline(f0)`: its effects and possible exception. -/
  audit_baseline : String → List Effect × Option Err

/-- The `results` dict of `scan_adhoc_string` after the `for secret in
scan_line(line)` loop, as a lookup function: every secret type starts at the
sentinel `'False'` and each scanned secret overwrites its type's slot with the
plugin-formatted representation (a later secret of the same type wins, as in
the Python dict assignment). -/
def resultsAfterScan (env : Env) (line : String) : String → String :=
  (env.scan_line line).foldl
    (fun m s => fun t => if t = s.type then env.format_scan_result s else m t)
    (fun _ => "False")

/-- `'{:%d}: {}' % longest` applied to a plugin name: the name left-justified
in a field of `width` spaces (names longer than `width` are not truncated). -/
def padName (s : String) (width : Nat) : String :=
  s ++ String.mk (List.replicate (width - s.length) ' ')

/-- `sorted(registered_plugins, key=lambda x: str(x.__class__.__name__))`. -/
def sortedPlugins (ps : List Plugin) : List Plugin :=
  ps.mergeSort (fun x y => decide (x.className ≤ y.className))

/-- One output row of `scan_adhoc_string` for a plugin. -/
def pluginRow (env : Env) (line : String) (longest : Nat) (p : Plugin) : String :=
  padName p.className longest ++ ": " ++ resultsAfterScan env line p.secretType

/-- `scan_adhoc_string(line)`.  `max([...])` on the empty plugin list raises
`ValueError`, modelled as `Except.error .valueError`. -/
def scan_adhoc_string (env : Env) (line : String) : Except Err String :=
  let registered := env.plugins
  match (registered.map (fun p => p.className.length)).max? with
  | none => .error .valueError
  | some longest =>
    .ok (String.intercalate "\n"
      ((sortedPlugins registered).map (pluginRow env line longest)))

/-- The line evaluated in the `args.string` branch: `args.string` itself, or
the first line of standard input when the flag was given without a value. -/
def adhocLine (env : Env) (a : ScanArgs) : String :=
  match a.string with
  | .pyBool _ => env.stdinFirstLine
  | .pyStr s => s
  | .pyNone => ""

/-- The `SecretsCollection` built by the `--only-allowlisted` branch: all
allowlisted secrets of every file produced by `get_files_to_scan`, in
enumeration order. -/
def allowlistSecrets (env : Env) (a : ScanArgs) : List Secret :=
  (env.get_files_to_scan a.path a.all_files a.custom_root).flatMap
    env.scan_for_allowlisted

/-- The default-path scan result:
`baseline.create(*args.path, should_scan_all_files, root, num_processors)`. -/
def defaultScanSecrets (env : Env) (a : ScanArgs) : List Secret :=
  env.baseline_create a.path a.all_files a.custom_root a.num_cores

/-- `handle_scan_action(args)`: the four-way dispatch of the `scan` verb,
returning the trace of effects and the exception, if any, that escapes it. -/
def handle_scan_action (env : Env) (a : ScanArgs) : List Effect × Option Err :=
  if a.list_all_plugins then
    ([.print (.pluginList env.settingsPlugins)], none)
  else if a.string.truthy then
    match scan_adhoc_string env (adhocLine env a) with
    | .ok out => ([.print (.adhoc out)], none)
    | .error e => ([], some e)
  else if a.only_allowlisted then
    ([.print (.allowlistJson (allowlistSecrets env a))], none)
  else
    let secrets := defaultScanSecrets env a
    match a.baseline with
    | some b =>
      match env.merge secrets b with
      | .ok merged => ([.saveBaseline merged a.baseline_filename], none)
      | .error e => ([], some e)
    | none => ([.print (.scanJson secrets a.slim)], none)

/-- `if args.only_real: ... elif args.only_false: ...` in the report branch. -/
def classToPrint (a : AuditArgs) : Option SecretClass :=
  if a.only_real then some .realSecret
  else if a.only_false then some .falsePositive
  else none

/-- `args.filename[i]`: the audit filenames are a positional list; the
command-line parser guarantees the indices used below are present. -/
def fname (a : AuditArgs) (i : Nat) : String :=
  a.filename.getD i ""

/-- The body of the `try:` block in `handle_audit_action`. -/
def handleAuditBody (env : Env) (a : AuditArgs) : List Effect × Option Err :=
  if a.stats then
    match env.calculate_statistics (fname a 0) with
    | .error e => ([], some e)
    | .ok stats =>
      if a.diff then ([], some .notImplemented)
      else if a.json then ([.print (.statsJson stats)], none)
      else ([.print (.statsStr stats)], none)
  else if a.report then
    match env.generate_report (fname a 0) (classToPrint a) with
    | .error e => ([], some e)
    | .ok r => ([.print (.reportJson r)], none)
  else
    if a.diff then env.compare_baselines (fname a 0) (fname a 1)
    else env.audit_baseline (fname a 0)

/-- `handle_audit_action(args)`: the body wrapped in
`except InvalidBaselineError: pass`. -/
def handle_audit_action (env : Env) (a : AuditArgs) : List Effect × Option Err :=
  match handleAuditBody env a with
  | (effs, some .invalidBaseline) => (effs, none)
  | r => r

/-- The parsed `args.action` together with the verb's arguments. -/
inductive Action where
  | scan (a : ScanArgs)
  | audit (a : AuditArgs)
  | other
deriving DecidableEq

/-- `main(argv)` after argument parsing: dispatch on the action, and return
exit code 0 unless an uncaught exception escapes (modelled as `Except.error`),
together with everything written to standard output or disk. -/
def main (env : Env) (act : Action) : List Effect × Except Err Nat :=
  let r := match act with
    | .scan a => handle_scan_action env a
    | .audit a => handle_audit_action env a
    | .other => ([], none)
  (r.1, match r.2 with
    | none => .ok 0
    | some e => .error e)

/-! Concrete fixtures used to instantiate the theorems below on executable
inputs. -/

/-- A sample detector plugin. -/
def pluginAWS : Plugin := ⟨"AWSKeyDetector", "AWS Access Key"⟩

/-- A second sample detector plugin, registered before `pluginAWS` although
its class name sorts after it, to exercise the sorting of output rows. -/
def pluginB64 : Plugin := ⟨"Base64HighEntropyString", "Base64 High Entropy String"⟩

/-- A concrete environment: two registered plugins, a scanner that flags the
line `AKIA-secret` as an AWS key, a merge that fails on the baseline token
`bad` and succeeds otherwise, and statistics that fail on `bad.json`. -/
def env0 : Env where
  settingsPlugins := ["AWSKeyDetector", "Base64HighEntropyString"]
  plugins := [pluginB64, pluginAWS]
  stdinFirstLine := "line from stdin"
  scan_line := fun line =>
    if line = "AKIA-secret" then [⟨"adhoc", "AWS Access Key"⟩] else []
  format_scan_result := fun s => "found secret of type " ++ s.type
  get_files_to_scan := fun paths _ _ => paths
  scan_for_allowlisted := fun f => [⟨f, "Allowlisted"⟩]
  baseline_create := fun paths _ _ _ => paths.map (fun p => ⟨p, "AWS Access Key"⟩)
  merge := fun secrets b => if b = "bad" then .error .invalidBaseline else .ok secrets
  calculate_statistics := fun f =>
    if f = "bad.json" then .error .invalidBaseline else .ok ⟨"statsjson", "statsstr"⟩
  generate_report := fun _ _ => .ok "reportjson"
  compare_baselines := fun _ _ => ([], none)
  audit_baseline := fun _ => ([], none)

/-- `env0` with an empty plugin registry (and hence no findings). -/
def envNoPlugins : Env :=
  { env0 with plugins := [], scan_line := fun _ => [] }

/-- Scan arguments with every mode flag raised at once: list-all-plugins, an
ad-hoc string, allowlist-only mode and a baseline are all supplied. -/
def argsAllFlags : ScanArgs where
  list_all_plugins := true
  string := .pyStr "AKIA-secret"
  only_allowlisted := true
  path := ["f.txt"]
  all_files := false
  custom_root := ""
  num_cores := 1
  baseline := some "good"
  baseline_filename := "out.baseline"
  slim := false

/-- Default-path scan arguments with a parseable baseline supplied. -/
def argsMergeGood : ScanArgs where
  list_all_plugins := false
  string := .pyNone
  only_allowlisted := false
  path := ["f.txt"]
  all_files := false
  custom_root := ""
  num_cores := 1
  baseline := some "good"
  baseline_filename := "out.baseline"
  slim := false

/-- Default-path scan arguments with an unparseable baseline supplied. -/
def argsMergeBad : ScanArgs :=
  { argsMergeGood with baseline := some "bad" }

/-- Allowlist-only scan arguments, with a baseline also supplied. -/
def argsAllowlist : ScanArgs :=
  { argsMergeGood with only_allowlisted := true }

/-- Audit arguments: statistics mode over an unparseable baseline. -/
def argsStatsBad : AuditArgs where
  stats := true
  diff := false
  json := false
  report := false
  only_real := false
  only_false := false
  filename := ["bad.json"]

/-- Audit arguments: statistics plus diff over a parseable baseline. -/
def argsStatsDiffGood : AuditArgs :=
  { argsStatsBad with diff := true, filename := ["good.json"] }

/-- Audit arguments: statistics plus diff over an unparseable baseline. -/
def argsStatsDiffBad : AuditArgs :=
  { argsStatsBad with diff := true }

/-- Audit arguments: report mode with both class filters raised at once. -/
def argsReportBoth : AuditArgs where
  stats := false
  diff := false
  json := false
  report := true
  only_real := true
  only_false := true
  filename := ["good.json"]

/-! Claim theorems. -/

/-- C1: every scan invocation runs exactly one of four mutually exclusive
branches, checked in the fixed order list-all-plugins, ad-hoc string,
allowlist-only, default scan; in particular when list-all-plugins is
requested only the registered plugin names are printed and nothing else
happens, whatever the other arguments are. -/
theorem scan_dispatch_order (env : Env) (a : ScanArgs) :
    (a.list_all_plugins = true →
      handle_scan_action env a = ([.print (.pluginList env.settingsPlugins)], none)) ∧
    (a.list_all_plugins = false → a.string.truthy = true →
      handle_scan_action env a =
        match scan_adhoc_string env (adhocLine env a) with
        | .ok out => ([.print (.adhoc out)], none)
        | .error e => ([], some e)) ∧
    (a.list_all_plugins = false → a.string.truthy = false → a.only_allowlisted = true →
      handle_scan_action env a =
        ([.print (.allowlistJson (allowlistSecrets env a))], none)) ∧
    (a.list_all_plugins = false → a.string.truthy = false → a.only_allowlisted = false →
      handle_scan_action env a =
        match a.baseline with
        | some b =>
          match env.merge (defaultScanSecrets env a) b with
          | .ok merged => ([.saveBaseline merged a.baseline_filename], none)
          | .error e => ([], some e)
        | none => ([.print (.scanJson (defaultScanSecrets env a) a.slim)], none)) := by
  refine ⟨fun h1 => ?_, fun h1 h2 => ?_, fun h1 h2 h3 => ?_, fun h1 h2 h3 => ?_⟩
  · simp [handle_scan_action, h1]
  · simp [handle_scan_action, h1, h2]
  · simp [handle_scan_action, h1, h2, h3]
  · simp [handle_scan_action, h1, h2, h3]

/-- Witness for C1: with every mode flag supplied at once, the
list-all-plugins branch wins and only the plugin names are printed. -/
theorem scan_dispatch_order_witness :
    handle_scan_action env0 argsAllFlags =
      ([.print (.pluginList env0.settingsPlugins)], none) :=
  (scan_dispatch_order env0 argsAllFlags).1 rfl

/-- C2: on the default scan path, exactly one of two effects occurs, never
both: with a baseline supplied and the merge succeeding, the merged result is
saved to disk and nothing is printed; with no baseline supplied, the result
set is printed as JSON (with the slim flag) and nothing is saved; and no
outcome ever both prints and saves. -/
theorem scan_default_print_xor_save (env : Env) (a : ScanArgs)
    (h1 : a.list_all_plugins = false) (h2 : a.string.truthy = false)
    (h3 : a.only_allowlisted = false) :
    (∀ b, a.baseline = some b →
      ∀ merged, env.merge (defaultScanSecrets env a) b = .ok merged →
        handle_scan_action env a = ([.saveBaseline merged a.baseline_filename], none)) ∧
    (a.baseline = none →
      handle_scan_action env a =
        ([.print (.scanJson (defaultScanSecrets env a) a.slim)], none)) ∧
    (∀ o s f, ¬(Effect.print o ∈ (handle_scan_action env a).1 ∧
        Effect.saveBaseline s f ∈ (handle_scan_action env a).1)) := by
  refine ⟨fun b hb merged hm => ?_, fun hb => ?_, fun o s f => ?_⟩
  · simp [handle_scan_action, h1, h2, h3, hb, hm]
  · simp [handle_scan_action, h1, h2, h3, hb]
  · rintro ⟨hp, hs⟩
    rcases hb : a.baseline with _ | b
    · simp [handle_scan_action, h1, h2, h3, hb] at hs
    · rcases hm : env.merge (defaultScanSecrets env a) b with e | merged <;>
        simp [handle_scan_action, h1, h2, h3, hb, hm] at hp hs

/-- Witness for C2: a concrete default-path scan with a parseable baseline
saves the merged collection and prints nothing. -/
theorem scan_default_print_xor_save_witness :
    handle_scan_action env0 argsMergeGood =
      ([.saveBaseline (defaultScanSecrets env0 argsMergeGood) "out.baseline"], none) :=
  (scan_default_print_xor_save env0 argsMergeGood rfl rfl rfl).1 "good" rfl
    (defaultScanSecrets env0 argsMergeGood) rfl

/-- C3: when the audit sub-workflow raises the baseline-parse error, it is
caught at the audit dispatch boundary, no further effect is produced, and
`main` still returns exit code 0 exactly as on normal completion. -/
theorem audit_invalid_baseline_recovered (env : Env) (a : AuditArgs)
    (effs : List Effect)
    (h : handleAuditBody env a = (effs, some .invalidBaseline)) :
    handle_audit_action env a = (effs, none) ∧
    main env (.audit a) = (effs, .ok 0) := by
  constructor
  · simp [handle_audit_action, h]
  · simp [main, handle_audit_action, h]

/-- Witness for C3: auditing the unparseable baseline `bad.json` in
statistics mode produces no output and exit code 0. -/
theorem audit_invalid_baseline_recovered_witness :
    handle_audit_action env0 argsStatsBad = ([], none) ∧
    main env0 (.audit argsStatsBad) = ([], .ok 0) :=
  audit_invalid_baseline_recovered env0 argsStatsBad [] (by decide)

/-- C4: when the supplied baseline of a scan-with-merge cannot be parsed,
the baseline error is not caught on the scan path: no baseline file is
written, no output is printed, and the error escapes `main` as a hard
failure instead of exit code 0. -/
theorem scan_merge_error_propagates (env : Env) (a : ScanArgs) (b : String)
    (h1 : a.list_all_plugins = false) (h2 : a.string.truthy = false)
    (h3 : a.only_allowlisted = false) (h4 : a.baseline = some b)
    (h5 : env.merge (defaultScanSecrets env a) b = .error .invalidBaseline) :
    handle_scan_action env a = ([], some .invalidBaseline) ∧
    main env (.scan a) = ([], .error .invalidBaseline) := by
  have hs : handle_scan_action env a = ([], some .invalidBaseline) := by
    simp [handle_scan_action, h1, h2, h3, h4, h5]
  exact ⟨hs, by simp [main, hs]⟩

/-- Witness for C4: scanning with the unparseable baseline token `bad`
writes nothing and makes `main` fail with the baseline error. -/
theorem scan_merge_error_propagates_witness :
    handle_scan_action env0 argsMergeBad = ([], some .invalidBaseline) ∧
    main env0 (.scan argsMergeBad) = ([], .error .invalidBaseline) :=
  scan_merge_error_propagates env0 argsMergeBad "bad" rfl rfl rfl rfl rfl

/-- Folding the scanned secrets of a line into the results table leaves the
slot of a type with no match at its initial value. -/
theorem resultsFold_no_match (env : Env) (t : String) :
    ∀ (l : List Secret) (m : String → String), (∀ s ∈ l, s.type ≠ t) →
      l.foldl
        (fun m s => fun u => if u = s.type then env.format_scan_result s else m u)
        m t = m t
  | [], _, _ => rfl
  | a :: l, m, h => by
    have ha : a.type ≠ t := h a (List.mem_cons_self a l)
    rw [List.foldl_cons,
      resultsFold_no_match env t l _ (fun s hs => h s (List.mem_cons_of_mem a hs))]
    exact if_neg (fun he => ha he.symm)

/-- Folding the scanned secrets of a line into the results table writes the
formatted representation into the slot of a type with exactly one match. -/
theorem resultsFold_single (env : Env) (t : String) :
    ∀ (l : List Secret) (m : String → String) (s : Secret),
      l.filter (fun x => x.type = t) = [s] →
      l.foldl
        (fun m s => fun u => if u = s.type then env.format_scan_result s else m u)
        m t = env.format_scan_result s
  | [], _, _, h => by simp at h
  | a :: l, m, s, h => by
    by_cases ha : a.type = t
    · rw [List.filter_cons_of_pos (by simpa using ha)] at h
      obtain ⟨rfl, hl⟩ := List.cons_eq_cons.mp h
      have hnone : ∀ x ∈ l, x.type ≠ t := by
        intro x hx
        have := List.filter_eq_nil_iff.mp hl x hx
        simpa using this
      rw [List.foldl_cons, resultsFold_no_match env t l _ hnone]
      exact if_pos ha.symm
    · rw [List.filter_cons_of_neg (by simpa using ha)] at h
      rw [List.foldl_cons]
      exact resultsFold_single env t l _ s h

/-- The output rows of `scan_adhoc_string` are sorted by plugin class name. -/
theorem sortedPlugins_names_sorted (ps : List Plugin) :
    ((sortedPlugins ps).map Plugin.className).Sorted (· ≤ ·) := by
  have h := @List.sorted_mergeSort Plugin
    (fun x y => decide (x.className ≤ y.className))
    (fun a b c hab hbc => by
      simp only [decide_eq_true_eq] at hab hbc ⊢
      exact le_trans hab hbc)
    (fun a b => by
      simp only [Bool.or_eq_true, decide_eq_true_eq]
      exact le_total a.className b.className)
    ps
  rw [List.Sorted, List.pairwise_map]
  exact h.imp (fun hab => by simpa using hab)

/-- C5: with a non-empty detector registry (witnessed by the maximal class
name length `longest`), ad-hoc evaluation returns one row per registered
detector; the rows are those of the registered detectors sorted by class
name; every left column is padded to exactly `longest`; a detector whose
secret type matches no finding on the line shows the sentinel `False`, and a
detector whose secret type matches exactly one finding shows that finding's
plugin-formatted scan result — so a line with zero matches yields one
sentinel row per detector. -/
theorem adhoc_table_shape (env : Env) (line : String) (longest : Nat)
    (hmax : (env.plugins.map (fun p => p.className.length)).max? = some longest) :
    scan_adhoc_string env line =
      .ok (String.intercalate "\n"
        ((sortedPlugins env.plugins).map (pluginRow env line longest))) ∧
    (sortedPlugins env.plugins).length = env.plugins.length ∧
    List.Perm (sortedPlugins env.plugins) env.plugins ∧
    ((sortedPlugins env.plugins).map Plugin.className).Sorted (· ≤ ·) ∧
    (∀ p ∈ env.plugins, (padName p.className longest).length = longest) ∧
    (∀ p, (∀ s ∈ env.scan_line line, s.type ≠ p.secretType) →
      pluginRow env line longest p =
        padName p.className longest ++ ": " ++ "False") ∧
    (∀ p s, (env.scan_line line).filter (fun x => x.type = p.secretType) = [s] →
      pluginRow env line longest p =
        padName p.className longest ++ ": " ++ env.format_scan_result s) := by
  refine ⟨?_, ?_, ?_, ?_, ?_, ?_, ?_⟩
  · simp only [scan_adhoc_string]
    rw [hmax]
  · exact List.length_mergeSort env.plugins
  · exact List.mergeSort_perm env.plugins _
  · exact sortedPlugins_names_sorted env.plugins
  · intro p hp
    have hub : ∀ b ∈ env.plugins.map (fun p => p.className.length), b ≤ longest :=
      (List.max?_le_iff (fun _ _ _ => Nat.max_le) hmax).mp (le_refl longest)
    have hle : p.className.length ≤ longest :=
      hub _ (List.mem_map_of_mem _ hp)
    simp only [padName, String.length_append, String.length_mk,
      List.length_replicate]
    omega
  · intro p hno
    unfold pluginRow resultsAfterScan
    rw [resultsFold_no_match env p.secretType (env.scan_line line) _ hno]
  · intro p s hone
    unfold pluginRow resultsAfterScan
    rw [resultsFold_single env p.secretType (env.scan_line line) _ s hone]

/-- Witness for C5: the table shape at the two-plugin environment, on a line
matched only by the AWS key detector, with pad width 23 (the length of the
longer class name). -/
theorem adhoc_table_shape_witness :
    scan_adhoc_string env0 "AKIA-secret" =
      .ok (String.intercalate "\n"
        ((sortedPlugins env0.plugins).map (pluginRow env0 "AKIA-secret" 23))) ∧
    pluginRow env0 "AKIA-secret" 23 pluginB64 =
      padName "Base64HighEntropyString" 23 ++ ": " ++ "False" ∧
    pluginRow env0 "AKIA-secret" 23 pluginAWS =
      padName "AWSKeyDetector" 23 ++ ": " ++
        env0.format_scan_result ⟨"adhoc", "AWS Access Key"⟩ := by
  refine ⟨(adhoc_table_shape env0 "AKIA-secret" 23 (by decide)).1, ?_, ?_⟩
  · exact (adhoc_table_shape env0 "AKIA-secret" 23 (by decide)).2.2.2.2.2.1
      pluginB64 (by decide)
  · exact (adhoc_table_shape env0 "AKIA-secret" 23 (by decide)).2.2.2.2.2.2
      pluginAWS ⟨"adhoc", "AWS Access Key"⟩ (by decide)

/-- C6: in allowlist-only mode the collected allowlisted findings are printed
as JSON and no baseline file is ever written, whatever the baseline argument
is: the branch returns before the merge-and-save branch is reached. -/
theorem allowlist_mode_never_saves (env : Env) (a : ScanArgs)
    (h1 : a.list_all_plugins = false) (h2 : a.string.truthy = false)
    (h3 : a.only_allowlisted = true) :
    handle_scan_action env a =
      ([.print (.allowlistJson (allowlistSecrets env a))], none) ∧
    (∀ s f, Effect.saveBaseline s f ∉ (handle_scan_action env a).1) := by
  have hs : handle_scan_action env a =
      ([.print (.allowlistJson (allowlistSecrets env a))], none) := by
    simp [handle_scan_action, h1, h2, h3]
  exact ⟨hs, fun s f => by simp [hs]⟩

/-- Witness for C6: an allowlist-only scan that also supplies a baseline
prints the allowlisted findings and writes no baseline file. -/
theorem allowlist_mode_never_saves_witness :
    handle_scan_action env0 argsAllowlist =
      ([.print (.allowlistJson (allowlistSecrets env0 argsAllowlist))], none) ∧
    (∀ s f, Effect.saveBaseline s f ∉ (handle_scan_action env0 argsAllowlist).1) :=
  allowlist_mode_never_saves env0 argsAllowlist rfl rfl rfl

/-- C7: auditing with both the statistics and diff flags on a parseable
baseline raises the not-implemented signal, which escapes `main` as a
failure distinguishable from success, and no statistics output of either
rendering is printed. -/
theorem audit_stats_diff_not_implemented (env : Env) (a : AuditArgs)
    (st : Stats) (h1 : a.stats = true) (h2 : a.diff = true)
    (h3 : env.calculate_statistics (fname a 0) = .ok st) :
    handle_audit_action env a = ([], some .notImplemented) ∧
    main env (.audit a) = ([], .error .notImplemented) := by
  have hb : handleAuditBody env a = ([], some .notImplemented) := by
    simp [handleAuditBody, h1, h2, h3]
  have ha : handle_audit_action env a = ([], some .notImplemented) := by
    simp [handle_audit_action, hb]
  exact ⟨ha, by simp [main, ha]⟩

/-- Witness for C7: `audit --stats --diff` on the parseable baseline
`good.json` fails with the not-implemented signal and prints nothing. -/
theorem audit_stats_diff_not_implemented_witness :
    handle_audit_action env0 argsStatsDiffGood = ([], some .notImplemented) ∧
    main env0 (.audit argsStatsDiffGood) = ([], .error .notImplemented) :=
  audit_stats_diff_not_implemented env0 argsStatsDiffGood
    ⟨"statsjson", "statsstr"⟩ rfl rfl rfl

/-- C8: in report mode the only-real filter is checked first and wins when
both filters are requested; with neither filter the report is unfiltered;
and whenever report generation succeeds the report is printed rather than
raising or producing an empty result. -/
theorem audit_report_filter_precedence (env : Env) (a : AuditArgs)
    (h1 : a.stats = false) (h2 : a.report = true) :
    (a.only_real = true → classToPrint a = some .realSecret) ∧
    (a.only_real = false → a.only_false = true →
      classToPrint a = some .falsePositive) ∧
    (a.only_real = false → a.only_false = false → classToPrint a = none) ∧
    (∀ r, env.generate_report (fname a 0) (classToPrint a) = .ok r →
      handle_audit_action env a = ([.print (.reportJson r)], none)) := by
  refine ⟨fun hr => ?_, fun hr hf => ?_, fun hr hf => ?_, fun r hrep => ?_⟩
  · simp [classToPrint, hr]
  · simp [classToPrint, hr, hf]
  · simp [classToPrint, hr, hf]
  · simp [handle_audit_action, handleAuditBody, h1, h2, hrep]

/-- Witness for C8: requesting both `--only-real` and `--only-false` selects
the real-secrets filter and still prints a report. -/
theorem audit_report_filter_precedence_witness :
    classToPrint argsReportBoth = some .realSecret ∧
    handle_audit_action env0 argsReportBoth =
      ([.print (.reportJson "reportjson")], none) :=
  ⟨(audit_report_filter_precedence env0 argsReportBoth rfl rfl).1 rfl,
   (audit_report_filter_precedence env0 argsReportBoth rfl rfl).2.2.2
     "reportjson" rfl⟩

/-- C9: statistics are computed before the diff flag is inspected, so with
both flags set on an unparseable baseline the baseline error is raised
first and swallowed by the dispatcher: no output, exit code 0, and the
not-implemented signal is never reached. -/
theorem audit_stats_diff_invalid_baseline_first (env : Env) (a : AuditArgs)
    (h1 : a.stats = true) ( _h2 : a.diff = true)
    (h3 : env.calculate_statistics (fname a 0) =
      .error .invalidBaseline) :
    handle_audit_action env a = ([], none) ∧
    main env (.audit a) = ([], .ok 0) := by
  have hb : handleAuditBody env a = ([], some .invalidBaseline) := by
    simp [handleAuditBody, h1, h3]
  have ha : handle_audit_action env a = ([], none) := by
    simp [handle_audit_action, hb]
  exact ⟨ha, by simp [main, ha]⟩

/-- Witness for C9: `audit --stats --diff` on the unparseable baseline
`bad.json` prints nothing and exits 0, instead of raising not-implemented. -/
theorem audit_stats_diff_invalid_baseline_first_witness :
    handle_audit_action env0 argsStatsDiffBad = ([], none) ∧
    main env0 (.audit argsStatsDiffBad) = ([], .ok 0) :=
  audit_stats_diff_invalid_baseline_first env0 argsStatsDiffBad rfl rfl rfl

/-- C10: ad-hoc line evaluation is not total on an empty detector registry:
with no plugin registered (and hence no findings on the line), taking the
maximum plugin-name length of the empty list raises an error instead of
returning an empty table. -/
theorem adhoc_empty_registry_errors (env : Env) (line : String)
    (h1 : env.plugins = []) ( _h2 : env.scan_line line = []) :
    scan_adhoc_string env line = .error .valueError := by
  simp [scan_adhoc_string, h1]

/-- Witness for C10: evaluating any line with the plugin-free environment
raises the error. -/
theorem adhoc_empty_registry_errors_witness :
    scan_adhoc_string envNoPlugins "AKIA-secret" = .error .valueError :=
  adhoc_empty_registry_errors envNoPlugins "AKIA-secret" rfl rfl

end DetectSecrets
